import Mathlib

/-!
Verification of the access-control and resource-retrieval pipeline of the
decentralized health-record broker.

The development embeds, directly from the JavaScript sources:
- the consent chaincode (`chaincode/consent-chaincode/lib/contract.js`):
  ledger state, `checkAccess` and its helpers;
- the crypto envelope framing (`backend/src/crypto/encrypt.js`):
  `packEncrypted` / `unpackEncrypted`;
- the attack/revocation override layer (`backend/src/routes/attack.js`):
  `attackState` map, `revokedOrgs` set, `isOrgRevoked`, the toggle route
  and the clear route;
- the resource retrieval route (`backend/src/routes/resource.js`):
  `getDecryptableKey` and the `GET /resource/:id` handler, with external
  collaborators (IPFS, Vault, the pyUmbral service, AES-GCM) abstracted as
  environment functions and the sequence of external interactions recorded
  as an explicit event trace.
-/

set_option maxRecDepth 10000

namespace HealthDb

/-- Decidable equality for `Except`, so concrete runs of the fallible
embedded operations can be checked by `decide`. -/
instance instDecEqExcept {ε α : Type} [DecidableEq ε] [DecidableEq α] :
    DecidableEq (Except ε α) := fun x y =>
  match x, y with
  | .ok a, .ok b =>
    if h : a = b then .isTrue (by rw [h])
    else .isFalse (by intro hc; cases hc; exact h rfl)
  | .error e, .error f =>
    if h : e = f then .isTrue (by rw [h])
    else .isFalse (by intro hc; cases hc; exact h rfl)
  | .ok _, .error _ => .isFalse (by intro hc; cases hc)
  | .error _, .ok _ => .isFalse (by intro hc; cases hc)

/-! ## Association-list helpers (model of the ledger KV store and JS Map/Set) -/

/-- Lookup in an association list keyed by strings (models `stub.getState`
on a composite key, and JS `Map.get`). -/
def lookupAssoc {α : Type} : List (String × α) → String → Option α
  | [], _ => none
  | (k2, v) :: rest, k => if k2 = k then some v else lookupAssoc rest k

/-- Insert-or-replace in an association list (models `stub.putState` and
JS `Map.set`). -/
def insertAssoc {α : Type} : List (String × α) → String → α → List (String × α)
  | [], k, v => [(k, v)]
  | (k2, v2) :: rest, k, v =>
    if k2 = k then (k, v) :: rest else (k2, v2) :: insertAssoc rest k v

/-- Remove a key from an association list (models JS `Map.delete`; keys in a
JS Map are unique, so removing every binding of the key is equivalent). -/
def eraseAssoc {α : Type} : List (String × α) → String → List (String × α)
  | [], _ => []
  | (k2, v2) :: rest, k =>
    if k2 = k then eraseAssoc rest k else (k2, v2) :: eraseAssoc rest k

/-- Membership test on a list of strings (models JS `Set.has`). -/
def elemStr : List String → String → Bool
  | [], _ => false
  | x :: rest, s => if x = s then true else elemStr rest s

/-- Add a string to a set modelled as a duplicate-free list
(models JS `Set.add`). -/
def insertSet (l : List String) (s : String) : List String :=
  if elemStr l s then l else l ++ [s]

/-- Remove a string from a set modelled as a list (models JS `Set.delete`). -/
def eraseSet (l : List String) (s : String) : List String :=
  l.filter (fun x => x ≠ s)

/-- Whether the first character list occurs at the head of the second. -/
def startsWithChars : List Char → List Char → Bool
  | [], _ => true
  | _ :: _, [] => false
  | a :: as, b :: bs => if a = b then startsWithChars as bs else false

/-- Whether the first character list occurs contiguously anywhere in the
second. -/
def hasSubChars (needle : List Char) : List Char → Bool
  | [] => startsWithChars needle []
  | c :: rest =>
    if startsWithChars needle (c :: rest) then true else hasSubChars needle rest

/-- JS `String.prototype.includes`: `includesSubstr needle hay` is true when
`needle` occurs contiguously inside `hay`. -/
def includesSubstr (needle hay : String) : Bool :=
  hasSubChars needle.data hay.data

/-- Lookup in an association list keyed by string pairs (models the ledger
composite key `[resourceId, granteeOrgId]`). -/
def lookupPairAssoc {α : Type} : List ((String × String) × α) → String × String → Option α
  | [], _ => none
  | (k2, v) :: rest, k => if k2 = k then some v else lookupPairAssoc rest k

/-! ## Consent chaincode data model (`lib/contract.js`) -/

/-- A resource record as stored by `uploadMeta`. -/
structure Resource where
  resourceId : String
  ownerOrgId : String
  cid : String
  sha256 : String
  fhirType : String
  deriving DecidableEq, Repr

/-- An access grant record as stored by `grantAccess`
(`revokedAt` of a revoked grant is not read by `checkAccess` and omitted). -/
structure AccessGrant where
  resourceId : String
  granteeOrgId : String
  expiryTimestamp : Nat
  accessType : String
  isActive : Bool
  deriving DecidableEq, Repr

/-- Ledger world state relevant to `checkAccess`: the `RESOURCE`-prefixed
records keyed by `resourceId`, and the `ACCESS`-prefixed records keyed by
the composite `resourceId:granteeOrgId` pair. -/
structure LedgerState where
  resources : List (String × Resource)
  grants : List ((String × String) × AccessGrant)
  deriving Repr

/-- `getState(createCompositeKey(RESOURCE, [resourceId]))`. -/
def lookupResource (st : LedgerState) (resourceId : String) : Option Resource :=
  lookupAssoc st.resources resourceId

/-- `getState(createCompositeKey(ACCESS, [resourceId, orgId]))`. -/
def lookupGrant (st : LedgerState) (resourceId orgId : String) : Option AccessGrant :=
  lookupPairAssoc st.grants (resourceId, orgId)

/-- The JSON object `checkAccess` returns; absent JSON fields are `none`. -/
structure AccessDecision where
  hasAccess : Bool
  isOwner : Option Bool
  accessType : Option String
  expiryTimestamp : Option Nat
  status : Option String
  reason : Option String
  deriving DecidableEq, Repr

/-- The decision `{hasAccess:true, accessType:'owner', isOwner:true}`. -/
def ownerDecision : AccessDecision :=
  { hasAccess := true, isOwner := some true, accessType := some "owner",
    expiryTimestamp := none, status := none, reason := none }

/-- The decision `{hasAccess:false, reason:'No access grant found'}`. -/
def noGrantDecision : AccessDecision :=
  { hasAccess := false, isOwner := none, accessType := none,
    expiryTimestamp := none, status := none,
    reason := some "No access grant found" }

/-- The decision `{hasAccess:false, reason:'Access has been revoked'}`. -/
def revokedGrantDecision : AccessDecision :=
  { hasAccess := false, isOwner := none, accessType := none,
    expiryTimestamp := none, status := none,
    reason := some "Access has been revoked" }

/-- The decision `{hasAccess:false, reason:'Access has expired'}`. -/
def expiredGrantDecision : AccessDecision :=
  { hasAccess := false, isOwner := none, accessType := none,
    expiryTimestamp := none, status := none,
    reason := some "Access has expired" }

/-- The success decision for a granted non-owner. -/
def grantedDecision (g : AccessGrant) : AccessDecision :=
  { hasAccess := true, isOwner := some false, accessType := some g.accessType,
    expiryTimestamp := some g.expiryTimestamp, status := none, reason := none }

/-- `ConsentContract.checkAccess(ctx, resourceId, orgId)` from
`lib/contract.js`, embedded statement by statement.  `currentTime` stands
for `ctx.stub.getTxTimestamp().seconds.low`; a thrown `Error` becomes
`Except.error` carrying the message. -/
def checkAccess (st : LedgerState) (currentTime : Nat)
    (resourceId orgId : String) : Except String AccessDecision :=
  match lookupResource st resourceId with
  | none => .error ("Resource " ++ resourceId ++ " does not exist")
  | some resource =>
    if resource.ownerOrgId = orgId then
      .ok ownerDecision
    else
      match lookupGrant st resourceId orgId with
      | none => .ok noGrantDecision
      | some accessGrant =>
        if accessGrant.isActive = false then
          .ok revokedGrantDecision
        else if accessGrant.expiryTimestamp < currentTime then
          .ok expiredGrantDecision
        else
          .ok (grantedDecision accessGrant)

/-! ## Crypto envelope framing (`encrypt.js`) -/

/-- `IV_LENGTH = 12`. -/
def IV_LENGTH : Nat := 12

/-- `AUTH_TAG_LENGTH = 16`. -/
def AUTH_TAG_LENGTH : Nat := 16

/-- Byte strings are modelled as lists of naturals. -/
abbrev Bytes := List Nat

/-- `packEncrypted`: `Buffer.concat([iv, authTag, ciphertext])`. -/
def packEncrypted (iv authTag ciphertext : Bytes) : Bytes :=
  iv ++ authTag ++ ciphertext

/-- The `{iv, authTag, ciphertext}` object returned by `unpackEncrypted`. -/
structure Unpacked where
  iv : Bytes
  authTag : Bytes
  ciphertext : Bytes
  deriving DecidableEq, Repr

/-- `unpackEncrypted`: throws `'Packed data too short'` when the input is
shorter than `IV_LENGTH + AUTH_TAG_LENGTH = 28`, otherwise slices
`[0,12)`, `[12,28)` and `[28,∞)`. -/
def unpackEncrypted (packed : Bytes) : Except String Unpacked :=
  if packed.length < IV_LENGTH + AUTH_TAG_LENGTH then
    .error "Packed data too short"
  else
    .ok { iv := packed.take IV_LENGTH,
          authTag := (packed.drop IV_LENGTH).take AUTH_TAG_LENGTH,
          ciphertext := packed.drop (IV_LENGTH + AUTH_TAG_LENGTH) }

/-! ## Attack / revocation override layer (`attack.js`) -/

/-- A value of the in-memory `attackState` map. -/
structure AttackEntry where
  nodeId : String
  orgId : String
  active : Bool
  attackType : String
  timestamp : Nat
  deriving DecidableEq, Repr

/-- The module-level mutable state of `attack.js`: the `attackState` map and
the `revokedOrgs` set. -/
structure OverrideState where
  attackState : List (String × AttackEntry)
  revokedOrgs : List String
  deriving DecidableEq, Repr

/-- `isOrgRevoked(orgId)`:
`revokedOrgs.has(orgId) || (attackState.has(orgId) && attackState.get(orgId).active)`. -/
def isOrgRevoked (st : OverrideState) (orgId : String) : Bool :=
  elemStr st.revokedOrgs orgId ||
    (match lookupAssoc st.attackState orgId with
     | some entry => entry.active
     | none => false)

/-- `validTypes` of the `POST /simulate-attack` handler. -/
def validAttackTypes : List String :=
  ["revoked", "compromised", "expired", "unauthorized"]

/-- The `POST /simulate-attack` handler's state transition: validates
`orgId` and `attackType`, then either installs an active attack entry
(adding to `revokedOrgs` when the type is `revoked`) or removes the org
from both the attack map and the revoked set.  A 400 response is an
`Except.error` carrying the message. -/
def toggleAttack (st : OverrideState) (nodeId : Option String) (orgId : String)
    (active : Bool) (attackType : String) (timestamp : Nat) :
    Except String OverrideState :=
  if orgId = "" then .error "orgId is required"
  else if elemStr validAttackTypes attackType = false then
    .error "Invalid attack type"
  else if active then
    let entry : AttackEntry :=
      { nodeId := nodeId.getD ("node-" ++ orgId), orgId := orgId,
        active := true, attackType := attackType, timestamp := timestamp }
    let st1 : OverrideState :=
      { st with attackState := insertAssoc st.attackState orgId entry }
    if attackType = "revoked" then
      .ok { st1 with revokedOrgs := insertSet st1.revokedOrgs orgId }
    else
      .ok st1
  else
    .ok { attackState := eraseAssoc st.attackState orgId,
          revokedOrgs := eraseSet st.revokedOrgs orgId }

/-- The `DELETE /simulate-attack` handler: clears both maps and reports the
number of cleared attack entries. -/
def clearAttacks (st : OverrideState) : Nat × OverrideState :=
  (st.attackState.length, { attackState := [], revokedOrgs := [] })

/-! ## Resource retrieval route (`resource.js`) -/

/-- The `{aesKey, iv, authTag}` record read from Vault at
`secret/data/owner/keys/<resourceId>`. -/
structure KeyData where
  aesKey : Bytes
  iv : Bytes
  authTag : Bytes
  deriving DecidableEq, Repr

/-- A rekey record read from Vault at
`secret/data/rekeys/<resourceId>/<callerOrgId>`. -/
structure RekeyData where
  rekeyId : String
  capsule : String
  encryptedKey : String
  deriving DecidableEq, Repr

/-- The pyUmbral `/reencrypt` response. -/
structure PreResponse where
  capsule : String
  ciphertext : String
  cfrags : String
  deriving DecidableEq, Repr

/-- External interactions performed by the retrieval route, in order. -/
inductive REv where
  | blobFetch
  | vaultRead
  | rekeyRead
  | sharedKeyRead
  | preReencryptCall
  | preDecryptCall
  | decryptOp
  | respond
  deriving DecidableEq, Repr

/-- The environment of the retrieval route: the ledger consulted through the
Fabric client, the transaction clock, and the external collaborators
(IPFS gateway chain, Vault, pyUmbral service, AES-256-GCM) as functions.
`none` / `Except.error` model a failed external call. -/
structure BackendEnv where
  ledger : LedgerState
  currentTime : Nat
  /-- `fetchFromIPFS cid`, after gateway fallback; `none` = all gateways failed. -/
  ipfs : String → Option Bytes
  /-- `encrypt.sha256Hex` on a byte buffer. -/
  hashHex : Bytes → String
  /-- Vault read of `secret/data/owner/keys/<resourceId>`. -/
  vaultKeys : String → Option KeyData
  /-- Vault read of `secret/data/rekeys/<resourceId>/<callerOrgId>`:
  `Except.error` = the read threw, `.ok none` = read succeeded but no data. -/
  rekeyRead : String → String → Except Unit (Option RekeyData)
  /-- Vault read of `secret/data/shared-keys/<resourceId>/<callerOrgId>`:
  `Except.error` = the read threw, `.ok none` = no `aesKey` field. -/
  sharedKeyRead : String → String → Except Unit (Option Bytes)
  /-- pyUmbral `POST /reencrypt`. -/
  preReencrypt : RekeyData → Option PreResponse
  /-- pyUmbral `POST /decrypt` (recipient, owner, reencrypt response);
  `some` carries the decoded key bytes. -/
  preDecrypt : String → String → PreResponse → Option Bytes
  /-- `encrypt.decrypt(ciphertext, key, iv, authTag)`; `none` = auth failure. -/
  decryptFn : Bytes → Bytes → Bytes → Bytes → Option Bytes

/-- `getDecryptableKey(resourceId, callerOrgId, ownerOrgId, encryptedKeyData)`
from `resource.js`, also reporting the external interactions it performed.
The route's outer `catch` flattens every failure, so errors carry no data. -/
def getDecryptableKey (env : BackendEnv) (resourceId callerOrgId ownerOrgId : String)
    (encryptedKeyData : KeyData) : Except Unit Bytes × List REv :=
  if callerOrgId = ownerOrgId then
    (.ok encryptedKeyData.aesKey, [])
  else
    match env.rekeyRead resourceId callerOrgId with
    | .error _ =>
      -- rekey read threw: fall back to the directly shared key record
      (match env.sharedKeyRead resourceId callerOrgId with
       | .ok (some sharedKey) => (.ok sharedKey, [.rekeyRead, .sharedKeyRead])
       | _ => (.error (), [.rekeyRead, .sharedKeyRead]))
    | .ok none =>
      -- read succeeded but returned no rekey: `if (!rekeyData) throw`
      (.error (), [.rekeyRead])
    | .ok (some rekeyData) =>
      match env.preReencrypt rekeyData with
      | none => (.error (), [.rekeyRead, .preReencryptCall])
      | some reencrypted =>
        match env.preDecrypt callerOrgId ownerOrgId reencrypted with
        | none => (.error (), [.rekeyRead, .preReencryptCall, .preDecryptCall])
        | some aesKeyBuffer =>
          (.ok aesKeyBuffer, [.rekeyRead, .preReencryptCall, .preDecryptCall])

/-- The terminal outcome of `GET /resource/:id`; constructors mirror the
route's distinct `res.status(...)` responses. -/
inductive RetrieveOutcome where
  /-- 400 `Missing x-org-id header`. -/
  | badRequest (error : String)
  /-- 404, either `Resource not found` or `Resource metadata not found`. -/
  | notFound (error : String)
  /-- 403 with the response's `error` field and its `reason`/`message`. -/
  | forbidden (error : String) (reason : String)
  /-- 503 `Storage service unavailable`. -/
  | storageUnavailable
  /-- 500 `Integrity verification failed`. -/
  | integrityFailure
  /-- 503 `Key service unavailable`. -/
  | keyServiceUnavailable
  /-- 500 `Decryption failed`. -/
  | decryptionFailed
  /-- 200 with the decrypted body and the Content-Type header. -/
  | ok (body : Bytes) (contentType : String)
  /-- 500 generic catch-all of the outer `try`. -/
  | serverError (message : String)
  deriving DecidableEq, Repr

/-- The `FHIR_CONTENT_TYPES` lookup with its `default` entry. -/
def contentTypeFor (fhirType : String) : String :=
  if fhirType = "Patient" ∨ fhirType = "Observation" ∨ fhirType = "ImagingStudy"
      ∨ fhirType = "DiagnosticReport" ∨ fhirType = "Condition" then
    "application/fhir+json"
  else
    "application/json"

/-- Step 6 and step 7 of the route (unpack the envelope, decrypt, respond):
shared tail of the owner-fallback path and the resolved-key path. -/
def decryptAndRespond (env : BackendEnv) (meta : Resource) (aesKey : Bytes)
    (encryptedData : Bytes) (evs : List REv) : RetrieveOutcome × List REv :=
  match unpackEncrypted encryptedData with
  | .error _ => (.decryptionFailed, evs)
  | .ok unpacked =>
    match env.decryptFn unpacked.ciphertext aesKey unpacked.iv unpacked.authTag with
    | none => (.decryptionFailed, evs ++ [.decryptOp])
    | some decryptedData =>
      (.ok decryptedData (contentTypeFor meta.fhirType),
       evs ++ [.decryptOp, .respond])

/-- The `GET /resource/:id` handler from `resource.js`, embedded in the
order of the source with the external-interaction trace made explicit. -/
def retrieveResource (env : BackendEnv) (resourceId callerOrgId : String) :
    RetrieveOutcome × List REv :=
  if callerOrgId = "" then
    (.badRequest "Missing x-org-id header", [])
  else
    -- Step 1: checkAccess through the Fabric client
    match checkAccess env.ledger env.currentTime resourceId callerOrgId with
    | .error msg =>
      if includesSubstr "does not exist" msg then
        (.notFound "Resource not found", [])
      else
        (.serverError msg, [])
    | .ok accessResult =>
      if accessResult.hasAccess = false then
        (.forbidden "Access denied"
          (accessResult.reason.getD "No permission to access this resource"), [])
      else
        -- Step 2: queryResource (a throw here reaches the outer catch)
        match lookupResource env.ledger resourceId with
        | none => (.serverError ("Resource " ++ resourceId ++ " does not exist"), [])
        | some resourceMeta =>
          if resourceMeta.cid = "" then
            (.notFound "Resource metadata not found", [])
          else
            -- Step 3: fetch the encrypted blob from IPFS
            match env.ipfs resourceMeta.cid with
            | none => (.storageUnavailable, [.blobFetch])
            | some encryptedData =>
              -- Integrity: sha256Hex(encryptedData) == stored sha256
              if env.hashHex encryptedData ≠ resourceMeta.sha256 then
                (.integrityFailure, [.blobFetch])
              else
                -- Step 4: owner key record from Vault
                match env.vaultKeys resourceId with
                | none => (.keyServiceUnavailable, [.blobFetch, .vaultRead])
                | some keyData =>
                  -- Step 5: obtain a decryptable key (via PRE if needed)
                  let resolved := getDecryptableKey env resourceId callerOrgId
                    resourceMeta.ownerOrgId keyData
                  let evs := [REv.blobFetch, REv.vaultRead] ++ resolved.2
                  match resolved.1 with
                  | .ok aesKey =>
                    decryptAndRespond env resourceMeta aesKey encryptedData evs
                  | .error _ =>
                    if accessResult.isOwner = some true then
                      decryptAndRespond env resourceMeta keyData.aesKey
                        encryptedData evs
                    else
                      (.forbidden "Decryption key unavailable"
                        "Unable to obtain decryption key for this resource", evs)

/-! ## Concrete fixtures used by the counterexample theorems and witnesses -/

/-- The resource of the spec's running scenario, owned by `hospital-001`. -/
def demoResource : Resource :=
  { resourceId := "patient-001", ownerOrgId := "hospital-001",
    cid := "cid-demo", sha256 := "hash-demo", fhirType := "Patient" }

/-- An active, far-future grant of `read` access to `lab-001`. -/
def demoGrant : AccessGrant :=
  { resourceId := "patient-001", granteeOrgId := "lab-001",
    expiryTimestamp := 9999999999, accessType := "read", isActive := true }

/-- Ledger holding the demo resource and the demo grant. -/
def demoLedger : LedgerState :=
  { resources := [("patient-001", demoResource)],
    grants := [(("patient-001", "lab-001"), demoGrant)] }

/-- Ledger with no records at all. -/
def emptyLedger : LedgerState := { resources := [], grants := [] }

/-- Override state with no overrides. -/
def emptyOverride : OverrideState := { attackState := [], revokedOrgs := [] }

/-- Override state after activating a `revoked` attack on `lab-001`. -/
def demoOverride : OverrideState :=
  { attackState := [("lab-001",
      { nodeId := "node-lab-001", orgId := "lab-001", active := true,
        attackType := "revoked", timestamp := 1700000000 })],
    revokedOrgs := ["lab-001"] }

/-! ## Helper lemmas -/

theorem startsWithChars_append (n t : List Char) :
    startsWithChars n (n ++ t) = true := by
  induction n with
  | nil => simp [startsWithChars]
  | cons c cs ih => simp [startsWithChars, ih]

theorem hasSubChars_append_self (pre n : List Char) :
    hasSubChars n (pre ++ n) = true := by
  induction pre with
  | nil =>
    cases n with
    | nil => simp [hasSubChars, startsWithChars]
    | cons c cs =>
      have h := startsWithChars_append (c :: cs) []
      rw [List.append_nil] at h
      simp [hasSubChars, h]
  | cons c cs ih =>
    cases hsw : startsWithChars n (c :: (cs ++ n)) <;>
      simp [hasSubChars, hsw, ih]

theorem includes_does_not_exist (r : String) :
    includesSubstr "does not exist" ("Resource " ++ r ++ " does not exist") = true := by
  have hdata : ("Resource " ++ r ++ " does not exist").data =
      (("Resource " ++ r).data ++ [' ']) ++ "does not exist".data := by
    simp [String.data_append, List.append_assoc]
  rw [includesSubstr, hdata, hasSubChars_append_self]

theorem lookupAssoc_insertAssoc_self {α : Type} (l : List (String × α))
    (k : String) (v : α) : lookupAssoc (insertAssoc l k v) k = some v := by
  induction l with
  | nil => simp [insertAssoc, lookupAssoc]
  | cons hd tl ih =>
    obtain ⟨k2, v2⟩ := hd
    by_cases hk : k2 = k <;> simp [insertAssoc, lookupAssoc, hk, ih]

theorem lookupAssoc_eraseAssoc_self {α : Type} (l : List (String × α))
    (k : String) : lookupAssoc (eraseAssoc l k) k = none := by
  induction l with
  | nil => simp [eraseAssoc, lookupAssoc]
  | cons hd tl ih =>
    obtain ⟨k2, v2⟩ := hd
    by_cases hk : k2 = k <;> simp [eraseAssoc, lookupAssoc, hk, ih]

theorem elemStr_eraseSet_self (l : List String) (s : String) :
    elemStr (eraseSet l s) s = false := by
  induction l with
  | nil => simp [eraseSet, elemStr]
  | cons x xs ih =>
    by_cases hx : x = s <;> simp [eraseSet, elemStr, hx, ih] <;>
      simpa [eraseSet] using ih

theorem elemStr_append_singleton (l : List String) (s : String) :
    elemStr (l ++ [s]) s = true := by
  induction l with
  | nil => simp [elemStr]
  | cons x xs ih => by_cases hx : x = s <;> simp [elemStr, hx, ih]

theorem elemStr_insertSet_self (l : List String) (s : String) :
    elemStr (insertSet l s) s = true := by
  unfold insertSet
  cases h : elemStr l s with
  | true => simp [h]
  | false => simp [h, elemStr_append_singleton]

theorem take_length_append {α : Type} (xs ys : List α) :
    (xs ++ ys).take xs.length = xs := by simp

theorem drop_length_append {α : Type} (xs ys : List α) :
    (xs ++ ys).drop xs.length = ys := by simp

theorem getDecryptableKey_no_decrypt_events (env : BackendEnv)
    (r c ow : String) (kd : KeyData) :
    REv.decryptOp ∉ (getDecryptableKey env r c ow kd).2 ∧
    REv.respond ∉ (getDecryptableKey env r c ow kd).2 := by
  by_cases hc : c = ow
  · simp [getDecryptableKey, hc]
  · rw [getDecryptableKey, if_neg hc]
    cases hrk : env.rekeyRead r c with
    | error e =>
      cases hsk : env.sharedKeyRead r c with
      | ok osk => cases osk <;> simp
      | error e2 => simp
    | ok ork =>
      cases ork with
      | none => simp
      | some rk =>
        cases hpre : env.preReencrypt rk with
        | none => simp [hpre]
        | some resp =>
          cases hdec : env.preDecrypt c ow resp with
          | none => simp [hpre, hdec]
          | some k => simp [hpre, hdec]

/-! ## More fixtures: a concrete retrieval environment -/

/-- 12-byte IV of the demo envelope. -/
def demoIV : Bytes := List.replicate 12 0

/-- 16-byte auth tag of the demo envelope. -/
def demoAuthTag : Bytes := List.replicate 16 1

/-- Ciphertext of the demo envelope. -/
def demoCipher : Bytes := [10, 20, 30]

/-- The packed demo blob stored at `cid-demo`. -/
def demoBlob : Bytes := packEncrypted demoIV demoAuthTag demoCipher

/-- Plaintext that the demo AES-GCM oracle produces. -/
def demoPlain : Bytes := [42, 43]

/-- The owner key record stored in Vault for `patient-001`. -/
def demoKeyData : KeyData :=
  { aesKey := List.replicate 32 7, iv := demoIV, authTag := demoAuthTag }

/-- The directly shared key stored for `lab-001` on `patient-001`. -/
def demoSharedKey : Bytes := List.replicate 32 9

/-- A concrete environment: demo ledger, one blob on IPFS, the owner key in
Vault, no rekeys, a shared key for `lab-001`, and an AES-GCM oracle that
decrypts the demo envelope under either legitimate key. -/
def demoEnv : BackendEnv :=
  { ledger := demoLedger, currentTime := 1700000000,
    ipfs := fun c => if c = "cid-demo" then some demoBlob else none,
    hashHex := fun b => if b = demoBlob then "hash-demo" else "hash-other",
    vaultKeys := fun rid => if rid = "patient-001" then some demoKeyData else none,
    rekeyRead := fun _ _ => .error (),
    sharedKeyRead := fun rid caller =>
      if rid = "patient-001" ∧ caller = "lab-001" then .ok (some demoSharedKey)
      else .error (),
    preReencrypt := fun _ => none,
    preDecrypt := fun _ _ _ => none,
    decryptFn := fun ct k iv tag =>
      if ct = demoCipher ∧ iv = demoIV ∧ tag = demoAuthTag ∧
          (k = demoKeyData.aesKey ∨ k = demoSharedKey) then some demoPlain
      else none }

/-- Like `demoEnv` but with an empty ledger (no resources at all). -/
def bareEnv : BackendEnv :=
  { ledger := emptyLedger, currentTime := 0,
    ipfs := fun _ => none, hashHex := fun _ => "", vaultKeys := fun _ => none,
    rekeyRead := fun _ _ => .error (), sharedKeyRead := fun _ _ => .error (),
    preReencrypt := fun _ => none, preDecrypt := fun _ _ _ => none,
    decryptFn := fun _ _ _ _ => none }

/-- Like `demoEnv` but every key-sharing record is absent, so key resolution
fails for every non-owner. -/
def keyFailEnv : BackendEnv :=
  { demoEnv with
    rekeyRead := fun _ _ => .error (),
    sharedKeyRead := fun _ _ => .error () }

/-- Like `demoEnv` but the fetched blob hashes to a value different from the
stored `sha256` metadata. -/
def badHashEnv : BackendEnv :=
  { demoEnv with hashHex := fun _ => "hash-evil" }

/-- The override state produced by activating a `compromised` attack on
`org-evil` from a clean state. -/
def compromisedState : OverrideState :=
  { attackState := [("org-evil",
      { nodeId := "node-org-evil", orgId := "org-evil", active := true,
        attackType := "compromised", timestamp := 5 })],
    revokedOrgs := [] }

/-! ## Claims -/

/-- Claim C1: the claim states that a revoked organization (ledger
`isRevoked` or an active override entry of type `revoked`) is always denied
by `checkAccess` with status `DENIED`, revocation being tested before
ownership.  The code does not implement this: `checkAccess` never consults
any revocation signal (the contract stores no `isRevoked` flag and has no
`revokeOrg`, and neither `checkAccess` nor the retrieval route ever calls
`isOrgRevoked`).  At the failing input below, `lab-001` is revoked per the
override layer (reached by the toggle route itself), holds an active
unexpired grant, and `checkAccess` grants access with no `DENIED` status;
the retrieval route even serves the plaintext. -/
theorem c1_revocation_override_not_consulted :
    toggleAttack emptyOverride none "lab-001" true "revoked" 1700000000 =
      .ok demoOverride ∧
    isOrgRevoked demoOverride "lab-001" = true ∧
    checkAccess demoLedger 1700000000 "patient-001" "lab-001" =
      .ok (grantedDecision demoGrant) ∧
    (grantedDecision demoGrant).hasAccess = true ∧
    (grantedDecision demoGrant).status ≠ some "DENIED" ∧
    retrieveResource demoEnv "patient-001" "lab-001" =
      (.ok demoPlain "application/fhir+json",
       [REv.blobFetch, REv.vaultRead, REv.rekeyRead, REv.sharedKeyRead,
        REv.decryptOp, REv.respond]) := by
  decide

/-- Claim C2: for a non-owner, non-revoked organization, `checkAccess`
evaluates the stored grant in this exact order with first match winning:
no grant → `No access grant found`; inactive grant → `Access has been
revoked`; expired grant (strict `<`, checked only after the active flag,
so an active-but-expired grant reports expiry, not revocation) →
`Access has expired`; otherwise access is granted with the grant's
`accessType` and `expiryTimestamp` and `isOwner:false`. -/
theorem c2_grant_evaluation_order (st : LedgerState) (ov : OverrideState)
    (t : Nat) (r o : String) (res : Resource)
    (hres : lookupResource st r = some res)
    (howner : res.ownerOrgId ≠ o)
    (_hrev : isOrgRevoked ov o = false) :
    (lookupGrant st r o = none → checkAccess st t r o = .ok noGrantDecision) ∧
    (∀ g, lookupGrant st r o = some g → g.isActive = false →
        checkAccess st t r o = .ok revokedGrantDecision) ∧
    (∀ g, lookupGrant st r o = some g → g.isActive = true →
        g.expiryTimestamp < t →
        checkAccess st t r o = .ok expiredGrantDecision) ∧
    (∀ g, lookupGrant st r o = some g → g.isActive = true →
        ¬ g.expiryTimestamp < t →
        checkAccess st t r o = .ok (grantedDecision g)) := by
  refine ⟨?_, ?_, ?_, ?_⟩
  · intro hg; simp [checkAccess, hres, howner, hg]
  · intro g hg hact; simp [checkAccess, hres, howner, hg, hact]
  · intro g hg hact hexp; simp [checkAccess, hres, howner, hg, hact, hexp]
  · intro g hg hact hexp; simp [checkAccess, hres, howner, hg, hact, hexp]

/-- Witness for C2 at the demo ledger: `lab-001` is a non-owner with an
active, unexpired grant and is granted `read` access. -/
theorem c2_grant_evaluation_order_witness :
    lookupResource demoLedger "patient-001" = some demoResource ∧
    demoResource.ownerOrgId ≠ "lab-001" ∧
    isOrgRevoked emptyOverride "lab-001" = false ∧
    lookupGrant demoLedger "patient-001" "lab-001" = some demoGrant ∧
    checkAccess demoLedger 1700000000 "patient-001" "lab-001" =
      .ok (grantedDecision demoGrant) :=
  ⟨by decide, by decide, by decide, by decide,
   (c2_grant_evaluation_order demoLedger emptyOverride 1700000000
      "patient-001" "lab-001" demoResource (by decide) (by decide)
      (by decide)).2.2.2 demoGrant (by decide) (by decide) (by decide)⟩

/-- Claim C3: the claim states that `checkAccess` is invariant under the
letter-case of the caller's `orgId` because of a normalization step.  The
code contains no normalization: the owner test is the exact string
comparison `resource.ownerOrgId === orgId` and the grant lookup uses the
raw `orgId` in the composite key.  With a grant created for `lab-001`,
querying as `LAB-001` yields `No access grant found` while `lab-001` is
granted, and the owner `hospital-001` queried as `HOSPITAL-001` is not
recognized as owner — so the two spellings give different results. -/
theorem c3_checkAccess_case_sensitive :
    checkAccess demoLedger 1700000000 "patient-001" "lab-001" =
      .ok (grantedDecision demoGrant) ∧
    checkAccess demoLedger 1700000000 "patient-001" "LAB-001" =
      .ok noGrantDecision ∧
    checkAccess demoLedger 1700000000 "patient-001" "LAB-001" ≠
      checkAccess demoLedger 1700000000 "patient-001" "lab-001" ∧
    checkAccess demoLedger 1700000000 "patient-001" "hospital-001" =
      .ok ownerDecision ∧
    checkAccess demoLedger 1700000000 "patient-001" "HOSPITAL-001" =
      .ok noGrantDecision := by
  decide

/-- Claim C4: for every existing resource and every non-revoked organization
whose `orgId` equals the resource's `ownerOrgId`, `checkAccess` returns
exactly `{hasAccess:true, isOwner:true, accessType:'owner'}`; the ledger
state (hence any grants, expired or inactive) is arbitrary, so ownership
short-circuits grant evaluation. -/
theorem c4_owner_precedence (st : LedgerState) (ov : OverrideState) (t : Nat)
    (r o : String) (res : Resource)
    (hres : lookupResource st r = some res)
    (howner : res.ownerOrgId = o)
    (_hrev : isOrgRevoked ov o = false) :
    checkAccess st t r o = .ok ownerDecision := by
  simp [checkAccess, hres, howner]

/-- Witness for C4: the owner `hospital-001` of `patient-001` — which also
appears in a ledger alongside a grant record — receives the owner decision. -/
theorem c4_owner_precedence_witness :
    lookupResource demoLedger "patient-001" = some demoResource ∧
    demoResource.ownerOrgId = "hospital-001" ∧
    isOrgRevoked emptyOverride "hospital-001" = false ∧
    checkAccess demoLedger 1700000000 "patient-001" "hospital-001" =
      .ok ownerDecision :=
  ⟨by decide, by decide, by decide,
   c4_owner_precedence demoLedger emptyOverride 1700000000 "patient-001"
     "hospital-001" demoResource (by decide) (by decide) (by decide)⟩

/-- Claim C5: a missing resource makes `checkAccess` fail with the
resource-does-not-exist error instead of returning `hasAccess:false`; the
retrieval route maps that failure to the 404 `Resource not found` outcome,
while a successful decision with `hasAccess:false` maps to the 403
`Access denied` outcome carrying the decision's reason — distinct
constructors, never conflated. -/
theorem c5_notfound_forbidden_distinct :
    (∀ st t r o, lookupResource st r = none →
        checkAccess st t r o = .error ("Resource " ++ r ++ " does not exist")) ∧
    (∀ env r o, o ≠ "" → lookupResource env.ledger r = none →
        retrieveResource env r o = (.notFound "Resource not found", [])) ∧
    (∀ env r o d, o ≠ "" →
        checkAccess env.ledger env.currentTime r o = .ok d →
        d.hasAccess = false →
        retrieveResource env r o =
          (.forbidden "Access denied"
            (d.reason.getD "No permission to access this resource"), [])) := by
  refine ⟨?_, ?_, ?_⟩
  · intro st t r o h; simp [checkAccess, h]
  · intro env r o ho h
    have hchk : checkAccess env.ledger env.currentTime r o =
        .error ("Resource " ++ r ++ " does not exist") := by
      simp [checkAccess, h]
    rw [retrieveResource, if_neg ho]
    simp only [hchk]
    rw [if_pos (includes_does_not_exist r)]
  · intro env r o d ho hchk hd
    rw [retrieveResource, if_neg ho]
    simp only [hchk]
    simp [hd]

/-- Witness for C5: the empty ledger makes `checkAccess` error and the route
404 on `ghost`, while the grant-less caller `clinic-9` on the demo ledger
gets 403 with `No access grant found`. -/
theorem c5_notfound_forbidden_distinct_witness :
    lookupResource emptyLedger "ghost" = none ∧
    checkAccess emptyLedger 0 "ghost" "org-x" =
      .error "Resource ghost does not exist" ∧
    retrieveResource bareEnv "ghost" "org-x" =
      (.notFound "Resource not found", []) ∧
    checkAccess demoLedger 1700000000 "patient-001" "clinic-9" =
      .ok noGrantDecision ∧
    retrieveResource demoEnv "patient-001" "clinic-9" =
      (.forbidden "Access denied" "No access grant found", []) := by
  refine ⟨by decide, ?_, ?_, by decide, ?_⟩
  · exact c5_notfound_forbidden_distinct.1 emptyLedger 0 "ghost" "org-x" (by decide)
  · exact c5_notfound_forbidden_distinct.2.1 bareEnv "ghost" "org-x"
      (by decide) (by decide)
  · exact c5_notfound_forbidden_distinct.2.2 demoEnv "patient-001" "clinic-9"
      noGrantDecision (by decide) (by decide) (by decide)

/-- Claim C6: for every 12-byte iv, 16-byte auth tag and ciphertext of any
length, unpacking the packed envelope returns exactly the three components,
the packed buffer has length `28 + N` laid out `[iv(12)][tag(16)][ct(N)]`,
and unpacking any input shorter than 28 bytes fails with the
envelope-too-short error. -/
theorem c6_envelope_roundtrip (iv authTag ciphertext : Bytes)
    (hiv : iv.length = 12) (htag : authTag.length = 16) :
    unpackEncrypted (packEncrypted iv authTag ciphertext) =
      .ok { iv := iv, authTag := authTag, ciphertext := ciphertext } ∧
    (packEncrypted iv authTag ciphertext).length = 28 + ciphertext.length ∧
    (∀ packed : Bytes, packed.length < 28 →
      unpackEncrypted packed = .error "Packed data too short") := by
  have hlen : (packEncrypted iv authTag ciphertext).length =
      28 + ciphertext.length := by
    simp [packEncrypted, hiv, htag]
    omega
  refine ⟨?_, hlen, ?_⟩
  · have htake : (packEncrypted iv authTag ciphertext).take 12 = iv := by
      rw [packEncrypted, List.append_assoc, ← hiv, take_length_append]
    have hdrop : (packEncrypted iv authTag ciphertext).drop 12 =
        authTag ++ ciphertext := by
      rw [packEncrypted, List.append_assoc, ← hiv, drop_length_append]
    have htag16 : (authTag ++ ciphertext).take 16 = authTag := by
      rw [← htag, take_length_append]
    have hct : (packEncrypted iv authTag ciphertext).drop 28 = ciphertext := by
      have h28 : (iv ++ authTag).length = 28 := by simp [hiv, htag]
      rw [packEncrypted, ← h28, drop_length_append]
    rw [unpackEncrypted,
      if_neg (by rw [hlen]; simp [IV_LENGTH, AUTH_TAG_LENGTH])]
    simp only [IV_LENGTH, AUTH_TAG_LENGTH]
    rw [htake, hdrop, htag16]
    norm_num
    rw [hct]
  · intro packed hp
    rw [unpackEncrypted,
      if_pos (by simp [IV_LENGTH, AUTH_TAG_LENGTH]; omega)]

/-- Witness for C6 at the demo envelope components. -/
theorem c6_envelope_roundtrip_witness :
    (List.replicate 12 0 : Bytes).length = 12 ∧
    (List.replicate 16 1 : Bytes).length = 16 ∧
    (unpackEncrypted (packEncrypted (List.replicate 12 0)
        (List.replicate 16 1) [5, 6]) =
      .ok { iv := List.replicate 12 0, authTag := List.replicate 16 1,
            ciphertext := [5, 6] } ∧
    (packEncrypted (List.replicate 12 0) (List.replicate 16 1) [5, 6]).length =
      28 + ([5, 6] : Bytes).length ∧
    (∀ packed : Bytes, packed.length < 28 →
      unpackEncrypted packed = .error "Packed data too short")) :=
  ⟨by decide, by decide,
   c6_envelope_roundtrip (List.replicate 12 0) (List.replicate 16 1) [5, 6]
     (by decide) (by decide)⟩

/-- Claim C7: in the retrieval route, when key resolution fails, the owner's
raw Vault key is used as the fallback key if and only if the access
decision marked the caller as owner; a non-owner caller gets the terminal
403 `Decryption key unavailable` with no decryption and no response event,
and when resolution succeeds the route proceeds with the resolved key, not
the raw key. -/
theorem c7_owner_only_raw_key_fallback (env : BackendEnv) (r o : String)
    (res : Resource) (blob : Bytes) (kd : KeyData) (d : AccessDecision)
    (ho : o ≠ "")
    (hchk : checkAccess env.ledger env.currentTime r o = .ok d)
    (hacc : d.hasAccess = true)
    (hres : lookupResource env.ledger r = some res)
    (hcid : res.cid ≠ "")
    (hblob : env.ipfs res.cid = some blob)
    (hhash : env.hashHex blob = res.sha256)
    (hkd : env.vaultKeys r = some kd) :
    ((getDecryptableKey env r o res.ownerOrgId kd).1 = .error () →
      d.isOwner ≠ some true →
      retrieveResource env r o =
        (.forbidden "Decryption key unavailable"
          "Unable to obtain decryption key for this resource",
         [REv.blobFetch, REv.vaultRead] ++
           (getDecryptableKey env r o res.ownerOrgId kd).2) ∧
      REv.decryptOp ∉ (retrieveResource env r o).2 ∧
      REv.respond ∉ (retrieveResource env r o).2 ∧
      (∀ body ct, (retrieveResource env r o).1 ≠ .ok body ct)) ∧
    ((getDecryptableKey env r o res.ownerOrgId kd).1 = .error () →
      d.isOwner = some true →
      retrieveResource env r o =
        decryptAndRespond env res kd.aesKey blob
          ([REv.blobFetch, REv.vaultRead] ++
            (getDecryptableKey env r o res.ownerOrgId kd).2)) ∧
    (∀ k, (getDecryptableKey env r o res.ownerOrgId kd).1 = .ok k →
      retrieveResource env r o =
        decryptAndRespond env res k blob
          ([REv.blobFetch, REv.vaultRead] ++
            (getDecryptableKey env r o res.ownerOrgId kd).2)) := by
  refine ⟨?_, ?_, ?_⟩
  · intro hfail hnot
    have h : retrieveResource env r o =
        (.forbidden "Decryption key unavailable"
          "Unable to obtain decryption key for this resource",
         [REv.blobFetch, REv.vaultRead] ++
           (getDecryptableKey env r o res.ownerOrgId kd).2) := by
      rw [retrieveResource, if_neg ho]
      simp only [hchk]
      simp [hacc, hres, hcid, hblob, hhash, hkd, hfail, hnot]
    have hev := getDecryptableKey_no_decrypt_events env r o res.ownerOrgId kd
    refine ⟨h, ?_, ?_, ?_⟩
    · rw [h]; simp [List.mem_append, hev.1]
    · rw [h]; simp [List.mem_append, hev.2]
    · intro body ct; rw [h]; simp
  · intro hfail hown
    rw [retrieveResource, if_neg ho]
    simp only [hchk]
    simp [hacc, hres, hcid, hblob, hhash, hkd, hfail, hown]
  · intro k hk
    rw [retrieveResource, if_neg ho]
    simp only [hchk]
    simp [hacc, hres, hcid, hblob, hhash, hkd, hk]

/-- Witness for C7: with every rekey and shared-key record absent, the
granted non-owner `lab-001` ends in 403 `Decryption key unavailable`. -/
theorem c7_owner_only_raw_key_fallback_witness :
    (getDecryptableKey keyFailEnv "patient-001" "lab-001"
        demoResource.ownerOrgId demoKeyData).1 = .error () ∧
    (grantedDecision demoGrant).isOwner ≠ some true ∧
    retrieveResource keyFailEnv "patient-001" "lab-001" =
      (.forbidden "Decryption key unavailable"
        "Unable to obtain decryption key for this resource",
       [REv.blobFetch, REv.vaultRead, REv.rekeyRead, REv.sharedKeyRead]) := by
  refine ⟨by decide, by decide, ?_⟩
  exact ((c7_owner_only_raw_key_fallback keyFailEnv "patient-001" "lab-001"
      demoResource demoBlob demoKeyData (grantedDecision demoGrant)
      (by decide) (by decide) (by decide) (by decide) (by decide) (by decide)
      (by decide) (by decide)).1 (by decide) (by decide)).1

/-- Claim C8: when the fetched blob's hash differs from the stored
`contentHash`, the retrieval route terminates with the integrity-failure
outcome right after the blob fetch: no Vault read, no key resolution, no
PRE call, no decryption and no response occur, and no plaintext is
returned. -/
theorem c8_integrity_fail_closed (env : BackendEnv) (r o : String)
    (res : Resource) (blob : Bytes) (d : AccessDecision)
    (ho : o ≠ "")
    (hchk : checkAccess env.ledger env.currentTime r o = .ok d)
    (hacc : d.hasAccess = true)
    (hres : lookupResource env.ledger r = some res)
    (hcid : res.cid ≠ "")
    (hblob : env.ipfs res.cid = some blob)
    (hmis : env.hashHex blob ≠ res.sha256) :
    retrieveResource env r o = (.integrityFailure, [REv.blobFetch]) ∧
    REv.vaultRead ∉ (retrieveResource env r o).2 ∧
    REv.rekeyRead ∉ (retrieveResource env r o).2 ∧
    REv.sharedKeyRead ∉ (retrieveResource env r o).2 ∧
    REv.preReencryptCall ∉ (retrieveResource env r o).2 ∧
    REv.preDecryptCall ∉ (retrieveResource env r o).2 ∧
    REv.decryptOp ∉ (retrieveResource env r o).2 ∧
    REv.respond ∉ (retrieveResource env r o).2 ∧
    (∀ body ct, (retrieveResource env r o).1 ≠ .ok body ct) := by
  have h : retrieveResource env r o = (.integrityFailure, [REv.blobFetch]) := by
    rw [retrieveResource, if_neg ho]
    simp only [hchk]
    simp [hacc, hres, hcid, hblob, hmis]
  refine ⟨h, ?_, ?_, ?_, ?_, ?_, ?_, ?_, ?_⟩ <;> rw [h]
  · decide
  · decide
  · decide
  · decide
  · decide
  · decide
  · decide
  · intro body ct; simp

/-- Witness for C8: the environment whose hash oracle returns `hash-evil`
drives the demo retrieval into the integrity-failure outcome. -/
theorem c8_integrity_fail_closed_witness :
    badHashEnv.hashHex demoBlob ≠ demoResource.sha256 ∧
    retrieveResource badHashEnv "patient-001" "lab-001" =
      (.integrityFailure, [REv.blobFetch]) :=
  ⟨by decide,
   (c8_integrity_fail_closed badHashEnv "patient-001" "lab-001" demoResource
      demoBlob (grantedDecision demoGrant) (by decide) (by decide) (by decide)
      (by decide) (by decide) (by decide) (by decide)).1⟩

/-- Claim C9: `isOrgRevoked` reports an org as revoked whenever it has any
active attack entry regardless of `attackType`; activating an override with
any valid type makes `isOrgRevoked` true, deactivating removes the org from
both the attack map and the revoked set making it false, and clearing all
overrides makes it false for every org. -/
theorem c9_override_revocation_semantics (st : OverrideState)
    (nodeId : Option String) (orgId attackType : String) (ts : Nat)
    (horg : orgId ≠ "")
    (htype : elemStr validAttackTypes attackType = true) :
    (∀ entry, lookupAssoc st.attackState orgId = some entry →
        entry.active = true → isOrgRevoked st orgId = true) ∧
    (∀ st1, toggleAttack st nodeId orgId true attackType ts = .ok st1 →
        isOrgRevoked st1 orgId = true) ∧
    (∀ st1, toggleAttack st nodeId orgId false attackType ts = .ok st1 →
        isOrgRevoked st1 orgId = false) ∧
    (∀ o, isOrgRevoked (clearAttacks st).2 o = false) := by
  refine ⟨?_, ?_, ?_, ?_⟩
  · intro entry hlook hact
    simp [isOrgRevoked, hlook, hact]
  · intro st1 htog
    rw [toggleAttack, if_neg horg, if_neg (by simp [htype])] at htog
    simp only [if_pos rfl] at htog
    by_cases hrev : attackType = "revoked"
    · rw [if_pos hrev] at htog
      cases htog
      simp [isOrgRevoked, elemStr_insertSet_self]
    · rw [if_neg hrev] at htog
      cases htog
      simp [isOrgRevoked, lookupAssoc_insertAssoc_self]
  · intro st1 htog
    rw [toggleAttack, if_neg horg, if_neg (by simp [htype])] at htog
    simp only [Bool.false_eq_true, if_false] at htog
    cases htog
    simp [isOrgRevoked, elemStr_eraseSet_self, lookupAssoc_eraseAssoc_self]
  · intro o
    simp [clearAttacks, isOrgRevoked, elemStr, lookupAssoc]

/-- Witness for C9: activating a `compromised` (not `revoked`) attack on
`org-evil` makes `isOrgRevoked` report it as revoked. -/
theorem c9_override_revocation_semantics_witness :
    ("org-evil" : String) ≠ "" ∧
    elemStr validAttackTypes "compromised" = true ∧
    toggleAttack emptyOverride none "org-evil" true "compromised" 5 =
      .ok compromisedState ∧
    isOrgRevoked compromisedState "org-evil" = true :=
  ⟨by decide, by decide, by decide,
   (c9_override_revocation_semantics emptyOverride none "org-evil"
      "compromised" 5 (by decide) (by decide)).2.1 compromisedState
     (by decide)⟩

/-- Claim C10: for an owner caller, `getDecryptableKey` returns the
Vault-supplied key immediately with no rekey read, no shared-key read and
no PRE call, and cannot fail; consequently the route's key-resolution step
takes the success arm for owners, so the owner-fallback branch (raw key
after a resolution failure) is unreachable for them. -/
theorem c10_owner_key_direct (env : BackendEnv) (r caller : String)
    (res : Resource) (blob : Bytes) (kd : KeyData)
    (ho : caller ≠ "")
    (hres : lookupResource env.ledger r = some res)
    (hown : res.ownerOrgId = caller)
    (hcid : res.cid ≠ "")
    (hblob : env.ipfs res.cid = some blob)
    (hhash : env.hashHex blob = res.sha256)
    (hkd : env.vaultKeys r = some kd) :
    getDecryptableKey env r caller res.ownerOrgId kd = (.ok kd.aesKey, []) ∧
    retrieveResource env r caller =
      decryptAndRespond env res kd.aesKey blob
        [REv.blobFetch, REv.vaultRead] := by
  have hkey : getDecryptableKey env r caller res.ownerOrgId kd =
      (.ok kd.aesKey, []) := by
    rw [getDecryptableKey, if_pos hown.symm]
  refine ⟨hkey, ?_⟩
  have hchk : checkAccess env.ledger env.currentTime r caller =
      .ok ownerDecision := by
    simp [checkAccess, hres, hown]
  rw [retrieveResource, if_neg ho]
  simp only [hchk]
  simp [ownerDecision, hres, hcid, hblob, hhash, hkd, hkey]

/-- Witness for C10: the owner `hospital-001` retrieves `patient-001`
directly with the Vault key; the final response decrypts successfully. -/
theorem c10_owner_key_direct_witness :
    getDecryptableKey demoEnv "patient-001" "hospital-001"
      demoResource.ownerOrgId demoKeyData = (.ok demoKeyData.aesKey, []) ∧
    retrieveResource demoEnv "patient-001" "hospital-001" =
      decryptAndRespond demoEnv demoResource demoKeyData.aesKey demoBlob
        [REv.blobFetch, REv.vaultRead] ∧
    decryptAndRespond demoEnv demoResource demoKeyData.aesKey demoBlob
        [REv.blobFetch, REv.vaultRead] =
      (.ok demoPlain "application/fhir+json",
       [REv.blobFetch, REv.vaultRead, REv.decryptOp, REv.respond]) := by
  have h := c10_owner_key_direct demoEnv "patient-001" "hospital-001"
    demoResource demoBlob demoKeyData (by decide) (by decide) (by decide)
    (by decide) (by decide) (by decide) (by decide)
  exact ⟨h.1, h.2, by decide⟩

end HealthDb
